import Mathlib

/-!
# Hello client of the Diameter example (`client/main.go`)

A shallow embedding of the client program: the request builder `sendHMR`, the
answer handlers `handleHMA` / `handleACA` with the `done` channel they signal,
the wait of `main`, and the constants and dictionary the client declares.

The go-diameter library and the Go runtime are outside the program.  What the
program observes of them is modelled as follows.

* A Go `error` is an `Option String`; `none` is `nil`.
* A message is its header (flags, command code, application id) and the
  ordered list of its AVPs; `Message.NewAVP` appends one AVP.
* A connection carries the context value installed by the state machine after
  the handshake (`smpeer.FromContext`), the answer its transport gives to a
  write, and the log of the messages handed to it by `Message.WriteTo`.
* `rand.Uint32()` is an input of `sendHMR`: a natural number below `2^32`.
* Go's `int` is `intSize` bits wide (32 or 64), in two's complement.
* A channel of `struct{}` is its capacity, the number of buffered values and
  its closed flag; a channel operation proceeds, panics or blocks.
* Logging (`log.Printf`) is not modelled.
-/

namespace HelloClient

/-! ## Go values -/

/-- Go `error`: `none` is `nil`, `some msg` an error with that text. -/
abbrev GoError := Option String

/-- Conversion of an unsigned value to Go's `int`, `intSize` bits wide, two's complement. -/
def toInt (intSize : Nat) (n : Nat) : Int :=
  if n % 2 ^ intSize < 2 ^ (intSize - 1) then (n % 2 ^ intSize : Nat)
  else ((n % 2 ^ intSize : Nat) : Int) - ((2 ^ intSize : Nat) : Int)

/-- Decimal digit `d` (below ten) as a character. -/
def digitChar (d : Nat) : Char := Char.ofNat (48 + d)

/-- Decimal digits of `n`, most significant first, pushed in front of `acc`. -/
def formatBits : Nat → Nat → List Char → List Char
  | 0, _, acc => acc
  | fuel + 1, n, acc =>
    if n < 10 then digitChar n :: acc
    else formatBits fuel (n / 10) (digitChar (n % 10) :: acc)

/-- Decimal representation of a natural number (`strconv.FormatUint(n, 10)`). -/
def formatUint (n : Nat) : List Char := formatBits (n + 1) n []

/-- Go `strconv.Itoa`: decimal representation of an `int`, with a leading minus sign when negative. -/
def Itoa (i : Int) : String :=
  if i < 0 then String.mk ('-' :: formatUint (-i).toNat) else String.mk (formatUint i.toNat)

/-! ## Messages (go-diameter `diam`, `avp`, `datatype`) -/

/-- Values of the `datatype` package the client uses. -/
inductive Data where
  | UTF8String (s : String)
  | DiameterIdentity (s : String)
  | Unsigned32 (n : Nat)
  | Address (ip : String)
  deriving DecidableEq, Repr

/-- An attribute-value pair as built by `diam.NewAVP(code, flags, vendor, data)`. -/
structure AVP where
  Code : Nat
  Flags : Nat
  VendorID : Nat
  Data : Data
  deriving DecidableEq, Repr

/-- Flag `avp.Vbit`: the AVP carries a vendor id. -/
def avp.Vbit : Nat := 0x80

/-- Constructor `diam.NewAVP`: the vendor bit is set in the flags when a vendor id is given. -/
def NewAVP (code flags vendor : Nat) (data : Data) : AVP :=
  { Code := code,
    Flags := if 0 < vendor then flags ||| avp.Vbit else flags,
    VendorID := vendor,
    Data := data }

/-- Header fields of a message that the client sets. -/
structure Header where
  CommandFlags : Nat
  CommandCode : Nat
  ApplicationID : Nat
  deriving DecidableEq, Repr

/-- A message: header and ordered AVP list. -/
structure Message where
  Header : Header
  AVP : List AVP
  deriving DecidableEq, Repr

/-- Flag `diam.RequestFlag`. -/
def RequestFlag : Nat := 0x80

/-- Constructor `diam.NewRequest(cmd, appid, nil)`: a request with no AVP. -/
def NewRequest (cmd appid : Nat) : Message :=
  { Header := { CommandFlags := RequestFlag, CommandCode := cmd, ApplicationID := appid }, AVP := [] }

/-- Method `Message.NewAVP`: append one AVP to the message. -/
def Message.NewAVP (m : Message) (code flags vendor : Nat) (data : Data) : Message :=
  { m with AVP := m.AVP ++ [HelloClient.NewAVP code flags vendor data] }

/-- Method `Message.FindAVP` by code: the first AVP with that code. -/
def Message.FindAVP (m : Message) (code : Nat) : Option HelloClient.AVP :=
  m.AVP.find? (fun a => a.Code == code)

/-- AVP codes and flags of the `avp` package (RFC 6733). -/
def avp.UserName : Nat := 1
def avp.AuthApplicationID : Nat := 258
def avp.AcctApplicationID : Nat := 259
def avp.SessionID : Nat := 263
def avp.OriginHost : Nat := 264
def avp.ResultCode : Nat := 268
def avp.ErrorMessage : Nat := 281
def avp.DestinationRealm : Nat := 283
def avp.DestinationHost : Nat := 293
def avp.OriginRealm : Nat := 296
def avp.Mbit : Nat := 0x40

/-! ## Settings, peer metadata, connection -/

/-- Settings `sm.Settings` of the state machine. -/
structure Settings where
  OriginHost : String
  OriginRealm : String
  VendorID : Nat
  ProductName : String
  OriginStateID : Nat
  FirmwareRevision : Nat
  HostIPAddresses : List String
  deriving DecidableEq, Repr

/-- Peer metadata `smpeer.Metadata` captured from the CER/CEA handshake. -/
structure Metadata where
  OriginHost : String
  OriginRealm : String
  deriving DecidableEq, Repr

/-- Context of a connection: holds the peer metadata once the handshake is done. -/
structure Context where
  metadata : Option Metadata

/-- Lookup `smpeer.FromContext`: the metadata and `ok`, or nothing. -/
def FromContext (ctx : Context) : Option Metadata := ctx.metadata

/-- A connection `diam.Conn`. -/
structure Conn where
  Context : Context
  /-- The error (or `nil`) the transport returns for a write of the message. -/
  Write : Message → GoError
  /-- Messages handed to the connection so far, oldest first. -/
  written : List Message

/-- Method `Message.WriteTo(c)`: hand the message to the connection and return the write's error. -/
def Message.WriteTo (m : Message) (c : Conn) : GoError × Conn :=
  (c.Write m, { c with written := c.written ++ [m] })

/-! ## Constants and dictionary of the client -/

def helloApplication : Nat := 999
def helloMessage : Nat := 111

/-- Function `sendHMR`: returns its error and the connection after the call. -/
def sendHMR (intSize : Nat) (c : Conn) (cfg : Settings) (randUint32 : Nat) : GoError × Conn :=
  match FromContext c.Context with
  | none => (some "peer metadata unavailable", c)
  | some peer =>
    let sid := "session;" ++ Itoa (toInt intSize randUint32)
    let m := NewRequest helloMessage helloApplication
    let m := m.NewAVP avp.SessionID avp.Mbit 0 (Data.UTF8String sid)
    let m := m.NewAVP avp.OriginHost avp.Mbit 0 (Data.DiameterIdentity cfg.OriginHost)
    let m := m.NewAVP avp.OriginRealm avp.Mbit 0 (Data.DiameterIdentity cfg.OriginRealm)
    let m := m.NewAVP avp.DestinationRealm avp.Mbit 0 (Data.DiameterIdentity peer.OriginRealm)
    let m := m.NewAVP avp.DestinationHost avp.Mbit 0 (Data.DiameterIdentity peer.OriginHost)
    let m := m.NewAVP avp.UserName avp.Mbit 0 (Data.UTF8String "foobar")
    m.WriteTo c

/-- A rule of the dictionary: the AVP it names, whether it is required, its maximum count. -/
structure Rule where
  AVP : String
  Required : Bool
  Max : Nat
  deriving DecidableEq, Repr

/-- A command of the dictionary with the rules of its request and of its answer. -/
structure Command where
  Code : Nat
  Short : String
  Name : String
  Request : List Rule
  Answer : List Rule
  deriving DecidableEq, Repr

/-- An application of the dictionary. -/
structure App where
  ID : Nat
  /-- The attribute `type` of the application element. -/
  Typ : String
  Command : List Command
  deriving DecidableEq, Repr

/-- The dictionary `helloDictionary`, element by element as the XML text declares it. -/
def helloDictionary : List App :=
  [ { ID := 999, Typ := "acct", Command :=
      [ { Code := 111, Short := "HM", Name := "Hello-Message",
          Request :=
            [ { AVP := "Session-Id", Required := true, Max := 1 },
              { AVP := "Origin-Host", Required := true, Max := 1 },
              { AVP := "Origin-Realm", Required := true, Max := 1 },
              { AVP := "Destination-Realm", Required := true, Max := 1 },
              { AVP := "Destination-Host", Required := true, Max := 1 },
              { AVP := "User-Name", Required := false, Max := 1 } ],
          Answer :=
            [ { AVP := "Session-Id", Required := true, Max := 1 },
              { AVP := "Result-Code", Required := true, Max := 1 },
              { AVP := "Origin-Host", Required := true, Max := 1 },
              { AVP := "Origin-Realm", Required := true, Max := 1 },
              { AVP := "Error-Message", Required := false, Max := 1 } ] } ] } ]

/-- Names of the base dictionary of go-diameter for the AVP codes above (RFC 6733). -/
def baseAVPCode (name : String) : Option Nat :=
  if name = "User-Name" then some avp.UserName
  else if name = "Auth-Application-Id" then some avp.AuthApplicationID
  else if name = "Acct-Application-Id" then some avp.AcctApplicationID
  else if name = "Session-Id" then some avp.SessionID
  else if name = "Origin-Host" then some avp.OriginHost
  else if name = "Result-Code" then some avp.ResultCode
  else if name = "Error-Message" then some avp.ErrorMessage
  else if name = "Destination-Realm" then some avp.DestinationRealm
  else if name = "Destination-Host" then some avp.DestinationHost
  else if name = "Origin-Realm" then some avp.OriginRealm
  else none

/-- Number of AVPs of the message with the given code. -/
def Message.countAVP (m : Message) (code : Nat) : Nat :=
  (m.AVP.filter (fun a => a.Code == code)).length

/-- The application of a dictionary with the given id. -/
def findApp (d : List App) (id : Nat) : Option App := d.find? (fun a => a.ID == id)

/-- The command of an application with the given code. -/
def App.findCommand (a : App) (code : Nat) : Option HelloClient.Command := a.Command.find? (fun k => k.Code == code)

/-! ## Configuration built by `main` -/

/-- One second in nanoseconds (`time.Second`). -/
def Second : Nat := 1000000000

/-- The settings `cfg` of `main`; `now` is `time.Now().Unix()`, stored as an unsigned 32-bit value. -/
def cfg (now : Nat) : Settings :=
  { OriginHost := "client",
    OriginRealm := "client_realm",
    VendorID := 13,
    ProductName := "go-diameter",
    OriginStateID := now % 2 ^ 32,
    FirmwareRevision := 1,
    HostIPAddresses := ["127.0.0.1"] }

/-- Fields of `sm.Client` that `main` sets (dictionary and handler apart). -/
structure Client where
  MaxRetransmits : Nat
  RetransmitInterval : Nat
  EnableWatchdog : Bool
  WatchdogInterval : Nat
  AcctApplicationID : List AVP
  AuthApplicationID : List AVP
  deriving DecidableEq, Repr

/-- The client `cli` of `main`. -/
def cli : Client :=
  { MaxRetransmits := 3,
    RetransmitInterval := Second,
    EnableWatchdog := true,
    WatchdogInterval := 5 * Second,
    AcctApplicationID := [NewAVP avp.AcctApplicationID avp.Mbit 0 (Data.Unsigned32 999)],
    AuthApplicationID := [NewAVP avp.AuthApplicationID avp.Mbit 0 (Data.Unsigned32 4)] }

/-! ## The `done` channel and the answer handlers -/

/-- State of a Go channel of `struct{}` values. -/
structure Chan where
  /-- Capacity of the buffer. -/
  cap : Nat
  /-- Number of buffered values. -/
  len : Nat
  /-- Whether the channel has been closed. -/
  closed : Bool
  /-- Number of goroutines parked in a send. -/
  sendq : Nat
  deriving DecidableEq, Repr

/-- Result of a statement that operates on a channel. -/
inductive Effect (α : Type) where
  /-- The statement completes. -/
  | returns (a : α)
  /-- The statement panics at run time. -/
  | panics (msg : String)
  /-- The goroutine is parked in the statement and does not continue. -/
  | blocks (a : α)
  deriving DecidableEq, Repr

/-- Go `make(chan struct{}, n)`. -/
def makeChan (n : Nat) : Chan := { cap := n, len := 0, closed := false, sendq := 0 }

/-- Go `close(ch)`: closing a closed channel panics. -/
def Chan.close (ch : Chan) : Effect Chan :=
  if ch.closed then Effect.panics "close of closed channel"
  else Effect.returns { ch with closed := true }

/-- Go `ch <- v` with no receiver waiting: panics when closed, buffers when there is room, parks otherwise. -/
def Chan.send (ch : Chan) : Effect Chan :=
  if ch.closed then Effect.panics "send on closed channel"
  else if ch.len < ch.cap then Effect.returns { ch with len := ch.len + 1 }
  else Effect.blocks { ch with sendq := ch.sendq + 1 }

/-- Whether a receive `<-ch` can proceed: a buffered value, a parked sender, or a closed channel. -/
def Chan.recvReady (ch : Chan) : Bool := decide (0 < ch.len) || decide (0 < ch.sendq) || ch.closed

/-- Handler returned by `handleHMA(done)`: logs the message and closes `done`. -/
def handleHMA (done : Chan) (_c : Conn) (_m : Message) : Effect Chan := done.close

/-- Handler returned by `handleACA(done)`: sends `ok` on `done`. -/
def handleACA (done : Chan) (_c : Conn) (_m : Message) : Effect Chan := done.send

/-- Sequencing of two channel statements of one goroutine. -/
def Effect.andThen {α : Type} (e : Effect α) (f : α → Effect α) : Effect α :=
  match e with
  | Effect.returns a => f a
  | Effect.panics msg => Effect.panics msg
  | Effect.blocks a => Effect.blocks a

/-! ## The wait of `main` -/

/-- An inbound answer, by the command name under which `main` registers its handler. -/
inductive Inbound where
  | HMA (m : Message)
  | ACA (m : Message)
  deriving DecidableEq, Repr

/-- Dispatch of the mux after `mux.Handle("HMA", handleHMA(done))` and `mux.Handle("ACA", handleACA(done))`. -/
def dispatch (done : Chan) (c : Conn) : Inbound → Effect Chan
  | Inbound.HMA m => handleHMA done c m
  | Inbound.ACA m => handleACA done c m

/-- How a run of `main` stands after some time (in nanoseconds since the select was entered). -/
inductive Run where
  /-- The function `main` has returned at the given time. -/
  | returned (t : Nat)
  /-- The call `log.Fatal(msg)` has ended the process at the given time. -/
  | fatal (msg : String) (t : Nat)
  /-- The function `main` is still blocked in its select. -/
  | waiting
  deriving DecidableEq, Repr

/-- The deadline `5 * time.Second` of `time.After` in `main`. -/
def deadline : Nat := 5 * Second

/-- One evaluation of the select of `main`: `none` when neither case can proceed;
when both can, `pick` chooses. -/
def selectDone (done : Chan) (timerFired pick : Bool) (now : Nat) : Option Run :=
  match done.recvReady, timerFired with
  | false, false => none
  | true, false => some (Run.returned now)
  | false, true => some (Run.fatal "timeout: no hello answer received" now)
  | true, true =>
    if pick then some (Run.returned now)
    else some (Run.fatal "timeout: no hello answer received" now)

/-- The select of `main` over time.  At each instant `now` the reader goroutine first
dispatches the inbound answer `inbound now`, then the select is evaluated; the timer
channel can proceed from `deadline` on.  The reader dispatches no further answer once
it has `stopped`: when it is parked in a handler, or when a handler has panicked (the
library recovers the panic in the goroutine that serves the connection, closes the
connection and ends that goroutine; the channel is as the failed statement found it
and `main` keeps waiting).  The run is followed for `fuel` instants. -/
def wait (c : Conn) (inbound : Nat → Option Inbound) (pick : Nat → Bool) :
    Nat → Nat → Chan → Bool → Run
  | 0, _, _, _ => Run.waiting
  | fuel + 1, now, done, stopped =>
    let handled : Effect Chan :=
      if stopped then Effect.returns done
      else match inbound now with
        | none => Effect.returns done
        | some ev => dispatch done c ev
    match handled with
    | Effect.panics _ =>
      match selectDone done (decide (deadline ≤ now)) (pick now) now with
      | some r => r
      | none => wait c inbound pick fuel (now + 1) done true
    | Effect.returns d =>
      match selectDone d (decide (deadline ≤ now)) (pick now) now with
      | some r => r
      | none => wait c inbound pick fuel (now + 1) d stopped
    | Effect.blocks d =>
      match selectDone d (decide (deadline ≤ now)) (pick now) now with
      | some r => r
      | none => wait c inbound pick fuel (now + 1) d true

/-- Function `main` from the call of `sendHMR` on: a failed send is fatal, otherwise
`main` waits on a fresh `done` channel of capacity 1000. -/
def mainFrom (intSize : Nat) (c : Conn) (cfg : Settings) (randUint32 : Nat)
    (inbound : Nat → Option Inbound) (pick : Nat → Bool) (fuel : Nat) : Run :=
  match sendHMR intSize c cfg randUint32 with
  | (some err, _) => Run.fatal err 0
  | (none, c1) => wait c1 inbound pick fuel 0 (makeChan 1000) false

/-! ## Session identifiers -/

/-- The session identifier `sendHMR` builds from a random draw. -/
def sessionID (intSize randUint32 : Nat) : String :=
  "session;" ++ Itoa (toInt intSize randUint32)

/-- The Session-Id AVP value of a message, if it has one. -/
def Message.sessionID (m : Message) : Option Data :=
  (m.FindAVP avp.SessionID).map (fun a => a.Data)

/-- Value of a decimal digit character. -/
def digitVal (ch : Char) : Nat := ch.toNat - 48

/-- Value of a list of decimal digits, most significant first, continuing from `acc`. -/
def parseUint (cs : List Char) (acc : Nat) : Nat :=
  cs.foldl (fun v ch => v * 10 + digitVal ch) acc

/-- Inverse of `Itoa` on its image (`strconv.Atoi`). -/
def Atoi (s : String) : Int :=
  match s.data with
  | [] => 0
  | ch :: cs =>
    if ch = '-' then -((parseUint cs 0 : Nat) : Int)
    else ((parseUint (ch :: cs) 0 : Nat) : Int)

/-! ## Concrete connections -/

/-- A connection as left by a completed handshake with the peer `server` of realm `server_realm`. -/
def serverConn : Conn :=
  { Context := { metadata := some { OriginHost := "server", OriginRealm := "server_realm" } },
    Write := fun _ => none,
    written := [] }

/-- A connection whose handshake has not completed: no metadata in the context. -/
def freshConn : Conn :=
  { Context := { metadata := none }, Write := fun _ => none, written := [] }

/-- A connection with peer metadata whose transport refuses every write. -/
def brokenConn : Conn :=
  { Context := { metadata := some { OriginHost := "server", OriginRealm := "server_realm" } },
    Write := fun _ => some "broken pipe",
    written := [] }

/-- An inbound answer whose Session-Id is `session;8`. -/
def otherAnswer : Message :=
  { Header := { CommandFlags := 0, CommandCode := helloMessage, ApplicationID := helloApplication },
    AVP :=
      [ { Code := avp.SessionID, Flags := avp.Mbit, VendorID := 0,
          Data := Data.UTF8String "session;8" },
        { Code := avp.ResultCode, Flags := avp.Mbit, VendorID := 0,
          Data := Data.Unsigned32 2001 },
        { Code := avp.OriginHost, Flags := avp.Mbit, VendorID := 0,
          Data := Data.DiameterIdentity "server" },
        { Code := avp.OriginRealm, Flags := avp.Mbit, VendorID := 0,
          Data := Data.DiameterIdentity "server_realm" } ] }

/-- A schedule of inbound answers: one HMA, three nanoseconds after the select is entered. -/
def answerAtThree (t : Nat) : Option Inbound :=
  if t = 3 then some (Inbound.HMA otherAnswer) else none

/-- A schedule of inbound answers: one ACA, nine nanoseconds after the select is entered. -/
def answerAtNine (t : Nat) : Option Inbound :=
  if t = 9 then some (Inbound.ACA otherAnswer) else none

/-! ## Decimal representation: `Atoi` inverts `Itoa` -/

theorem digitVal_digitChar (d : Nat) (h : d < 10) : digitVal (digitChar d) = d := by
  interval_cases d <;> rfl

theorem digitChar_ne_minus (d : Nat) (h : d < 10) : digitChar d ≠ '-' := by
  interval_cases d <;> decide

theorem parseUint_formatBits (fuel : Nat) :
    ∀ (n : Nat) (acc : List Char), n < fuel →
      parseUint (formatBits fuel n acc) 0 = parseUint acc n := by
  induction fuel with
  | zero => intro n acc h; omega
  | succ fuel ih =>
    intro n acc h
    unfold formatBits
    split
    · rename_i h10
      simp [parseUint, digitVal_digitChar n h10]
    · rename_i h10
      rw [ih (n / 10) _ (by omega)]
      have hd := digitVal_digitChar (n % 10) (Nat.mod_lt n (by decide))
      simp only [parseUint, List.foldl_cons, hd]
      congr 1
      omega

theorem parseUint_formatUint (n : Nat) : parseUint (formatUint n) 0 = n := by
  unfold formatUint
  rw [parseUint_formatBits (n + 1) n [] (by omega)]
  simp [parseUint]

theorem formatBits_head (fuel n : Nat) (acc : List Char) :
    ∃ d rest, d < 10 ∧ formatBits (fuel + 1) n acc = digitChar d :: rest := by
  induction fuel generalizing n acc with
  | zero =>
    unfold formatBits
    split
    · rename_i h10
      exact ⟨n, acc, h10, rfl⟩
    · exact ⟨n % 10, acc, Nat.mod_lt n (by decide), by simp [formatBits]⟩
  | succ fuel ih =>
    unfold formatBits
    split
    · rename_i h10
      exact ⟨n, acc, h10, rfl⟩
    · exact ih (n / 10) _

theorem Atoi_formatUint (n : Nat) : Atoi (String.mk (formatUint n)) = (n : Int) := by
  obtain ⟨d, rest, hd, hfmt⟩ := formatBits_head n n []
  have hval := parseUint_formatUint n
  unfold formatUint at hval
  unfold formatUint
  rw [hfmt] at hval ⊢
  simp only [Atoi, if_neg (digitChar_ne_minus d hd), hval]

theorem Atoi_Itoa (i : Int) : Atoi (Itoa i) = i := by
  unfold Itoa
  split
  · rename_i hneg
    have hval := parseUint_formatUint (-i).toNat
    simp only [Atoi, if_true, hval]
    omega
  · rename_i hpos
    rw [Atoi_formatUint]
    omega

theorem Itoa_injective : Function.Injective Itoa := by
  intro i j h
  have := congrArg Atoi h
  rwa [Atoi_Itoa, Atoi_Itoa] at this

theorem toInt_inj (w : Nat) (hw : w = 32 ∨ w = 64) (a b : Nat)
    (ha : a < 2 ^ 32) (hb : b < 2 ^ 32) (h : toInt w a = toInt w b) : a = b := by
  rcases hw with rfl | rfl
  · have ha2 : a % 2 ^ 32 = a := Nat.mod_eq_of_lt ha
    have hb2 : b % 2 ^ 32 = b := Nat.mod_eq_of_lt hb
    unfold toInt at h
    rw [ha2, hb2] at h
    norm_num at h
    split_ifs at h <;> omega
  · have ha2 : a % 2 ^ 64 = a := Nat.mod_eq_of_lt (by omega)
    have hb2 : b % 2 ^ 64 = b := Nat.mod_eq_of_lt (by omega)
    unfold toInt at h
    rw [ha2, hb2] at h
    norm_num at h
    split_ifs at h <;> omega

theorem sessionID_inj (w : Nat) (hw : w = 32 ∨ w = 64) (a b : Nat)
    (ha : a < 2 ^ 32) (hb : b < 2 ^ 32) (h : sessionID w a = sessionID w b) : a = b := by
  unfold sessionID at h
  have h2 : Itoa (toInt w a) = Itoa (toInt w b) := by
    have := congrArg String.data h
    simp only [String.data_append] at this
    exact String.ext (List.append_cancel_left this)
  exact toInt_inj w hw a b ha hb (Itoa_injective h2)

/-! ## The request built and written by `sendHMR` -/

/-- With peer metadata in the context, `sendHMR` hands exactly one message to the
connection, the six-AVP request, and returns the error of that write. -/
theorem sendHMR_of_metadata (w : Nat) (c : Conn) (cfg : Settings) (r : Nat) (peer : Metadata)
    (h : FromContext c.Context = some peer) :
    sendHMR w c cfg r =
      (c.Write
        { Header := { CommandFlags := RequestFlag, CommandCode := helloMessage,
                      ApplicationID := helloApplication },
          AVP :=
            [ { Code := avp.SessionID, Flags := avp.Mbit, VendorID := 0, Data := Data.UTF8String (sessionID w r) },
              { Code := avp.OriginHost, Flags := avp.Mbit, VendorID := 0, Data := Data.DiameterIdentity cfg.OriginHost },
              { Code := avp.OriginRealm, Flags := avp.Mbit, VendorID := 0, Data := Data.DiameterIdentity cfg.OriginRealm },
              { Code := avp.DestinationRealm, Flags := avp.Mbit, VendorID := 0, Data := Data.DiameterIdentity peer.OriginRealm },
              { Code := avp.DestinationHost, Flags := avp.Mbit, VendorID := 0, Data := Data.DiameterIdentity peer.OriginHost },
              { Code := avp.UserName, Flags := avp.Mbit, VendorID := 0, Data := Data.UTF8String "foobar" } ] },
       { c with written := c.written ++
          [ { Header := { CommandFlags := RequestFlag, CommandCode := helloMessage,
                          ApplicationID := helloApplication },
              AVP :=
                [ { Code := avp.SessionID, Flags := avp.Mbit, VendorID := 0, Data := Data.UTF8String (sessionID w r) },
                  { Code := avp.OriginHost, Flags := avp.Mbit, VendorID := 0, Data := Data.DiameterIdentity cfg.OriginHost },
                  { Code := avp.OriginRealm, Flags := avp.Mbit, VendorID := 0, Data := Data.DiameterIdentity cfg.OriginRealm },
                  { Code := avp.DestinationRealm, Flags := avp.Mbit, VendorID := 0, Data := Data.DiameterIdentity peer.OriginRealm },
                  { Code := avp.DestinationHost, Flags := avp.Mbit, VendorID := 0, Data := Data.DiameterIdentity peer.OriginHost },
                  { Code := avp.UserName, Flags := avp.Mbit, VendorID := 0, Data := Data.UTF8String "foobar" } ] } ] }) := by
  simp only [sendHMR, h]
  rfl

/-- C1: when the context of the connection holds peer metadata `peer`, `sendHMR`
writes exactly one message to the connection, and that message carries exactly one
Destination-Realm AVP, whose data is the identity `peer.OriginRealm`, and exactly
one Destination-Host AVP, whose data is the identity `peer.OriginHost`, for every
configuration: every AVP of the message with one of these codes has that data. -/
theorem sendHMR_destination (w : Nat) (c : Conn) (cfg : Settings) (r : Nat) (peer : Metadata)
    (h : FromContext c.Context = some peer) :
    ∃ m, (sendHMR w c cfg r).2.written = c.written ++ [m] ∧
      m.FindAVP avp.DestinationRealm =
        some { Code := 283, Flags := 0x40, VendorID := 0,
               Data := Data.DiameterIdentity peer.OriginRealm } ∧
      m.FindAVP avp.DestinationHost =
        some { Code := 293, Flags := 0x40, VendorID := 0,
               Data := Data.DiameterIdentity peer.OriginHost } ∧
      (m.FindAVP avp.DestinationRealm).map (fun a => a.Data) =
        some (Data.DiameterIdentity peer.OriginRealm) ∧
      (m.FindAVP avp.DestinationHost).map (fun a => a.Data) =
        some (Data.DiameterIdentity peer.OriginHost) ∧
      (m.AVP.filter (fun a => a.Code == 283)).map (fun a => a.Data) =
        [Data.DiameterIdentity peer.OriginRealm] ∧
      (m.AVP.filter (fun a => a.Code == 293)).map (fun a => a.Data) =
        [Data.DiameterIdentity peer.OriginHost] ∧
      m.countAVP avp.DestinationRealm = 1 ∧ m.countAVP avp.DestinationHost = 1 := by
  rw [sendHMR_of_metadata w c cfg r peer h]
  exact ⟨_, rfl, rfl, rfl, rfl, rfl, rfl, rfl, rfl, rfl⟩

theorem sendHMR_destination_witness :
    FromContext serverConn.Context = some { OriginHost := "server", OriginRealm := "server_realm" } ∧
    ∃ m, (sendHMR 64 serverConn (cfg 0) 7).2.written = serverConn.written ++ [m] ∧
      m.FindAVP avp.DestinationRealm =
        some { Code := 283, Flags := 0x40, VendorID := 0,
               Data := Data.DiameterIdentity "server_realm" } ∧
      m.FindAVP avp.DestinationHost =
        some { Code := 293, Flags := 0x40, VendorID := 0,
               Data := Data.DiameterIdentity "server" } ∧
      (m.FindAVP avp.DestinationRealm).map (fun a => a.Data) =
        some (Data.DiameterIdentity "server_realm") ∧
      (m.FindAVP avp.DestinationHost).map (fun a => a.Data) =
        some (Data.DiameterIdentity "server") ∧
      (m.AVP.filter (fun a => a.Code == 283)).map (fun a => a.Data) =
        [Data.DiameterIdentity "server_realm"] ∧
      (m.AVP.filter (fun a => a.Code == 293)).map (fun a => a.Data) =
        [Data.DiameterIdentity "server"] ∧
      m.countAVP avp.DestinationRealm = 1 ∧ m.countAVP avp.DestinationHost = 1 :=
  ⟨rfl, sendHMR_destination 64 serverConn (cfg 0) 7
    { OriginHost := "server", OriginRealm := "server_realm" } rfl⟩

/-- C2: when the context of the connection holds no peer metadata, `sendHMR`
returns the error `peer metadata unavailable` (a value, not a panic) and leaves the
connection as it was: nothing is written to it. -/
theorem sendHMR_no_metadata (w : Nat) (c : Conn) (cfg : Settings) (r : Nat)
    (h : FromContext c.Context = none) :
    (sendHMR w c cfg r).1 = some "peer metadata unavailable" ∧
      (sendHMR w c cfg r).2 = c ∧ (sendHMR w c cfg r).2.written = c.written := by
  simp only [sendHMR, h, and_self]

theorem sendHMR_no_metadata_witness :
    FromContext freshConn.Context = none ∧
    (sendHMR 64 freshConn (cfg 0) 7).1 = some "peer metadata unavailable" ∧
      (sendHMR 64 freshConn (cfg 0) 7).2 = freshConn ∧
      (sendHMR 64 freshConn (cfg 0) 7).2.written = freshConn.written :=
  ⟨rfl, sendHMR_no_metadata 64 freshConn (cfg 0) 7 rfl⟩

/-- C7: when the context of the connection holds peer metadata, the result of
`sendHMR` is the error returned by the write of the one message it hands to the
connection: it is `nil` exactly when the write succeeded, and the error of a failed
write is returned as it is. -/
theorem sendHMR_returns_write_error (w : Nat) (c : Conn) (cfg : Settings) (r : Nat)
    (peer : Metadata) (h : FromContext c.Context = some peer) :
    ∃ m, (sendHMR w c cfg r).2.written = c.written ++ [m] ∧
      (sendHMR w c cfg r).1 = c.Write m ∧
      ((sendHMR w c cfg r).1 = none ↔ c.Write m = none) ∧
      ∀ err, c.Write m = some err → (sendHMR w c cfg r).1 = some err := by
  rw [sendHMR_of_metadata w c cfg r peer h]
  exact ⟨_, rfl, rfl, Iff.rfl, fun _ he => he⟩

theorem sendHMR_returns_write_error_witness :
    FromContext brokenConn.Context = some { OriginHost := "server", OriginRealm := "server_realm" } ∧
    (sendHMR 64 brokenConn (cfg 0) 7).1 = some "broken pipe" ∧
    ∃ m, (sendHMR 64 brokenConn (cfg 0) 7).2.written = brokenConn.written ++ [m] ∧
      (sendHMR 64 brokenConn (cfg 0) 7).1 = brokenConn.Write m ∧
      ((sendHMR 64 brokenConn (cfg 0) 7).1 = none ↔ brokenConn.Write m = none) ∧
      ∀ err, brokenConn.Write m = some err → (sendHMR 64 brokenConn (cfg 0) 7).1 = some err :=
  ⟨rfl, rfl, sendHMR_returns_write_error 64 brokenConn (cfg 0) 7
    { OriginHost := "server", OriginRealm := "server_realm" } rfl⟩

/-- C8: `helloApplication` is 999, the id of the one application `helloDictionary`
declares and the value (the data, an unsigned 32-bit 999) of the one AVP the client
advertises under the code of Acct-Application-Id;
`helloMessage` is 111, the code of a command of that application; and the request
that `sendHMR` writes has application id `helloApplication`, command code
`helloMessage` and the request flag. -/
theorem hello_constants_agree (w : Nat) (c : Conn) (cfg : Settings) (r : Nat) (peer : Metadata)
    (h : FromContext c.Context = some peer) :
    helloApplication = 999 ∧ helloMessage = 111 ∧
    helloDictionary.map (fun a => a.ID) = [helloApplication] ∧
    cli.AcctApplicationID =
      [{ Code := 259, Flags := 0x40, VendorID := 0, Data := Data.Unsigned32 helloApplication }] ∧
    cli.AcctApplicationID.map (fun a => a.Code) = [avp.AcctApplicationID] ∧
    cli.AcctApplicationID.map (fun a => a.Data) = [Data.Unsigned32 999] ∧
    (∃ app k, findApp helloDictionary helloApplication = some app ∧
      app.findCommand helloMessage = some k ∧ k.Code = helloMessage) ∧
    ∃ m, (sendHMR w c cfg r).2.written = c.written ++ [m] ∧
      m.Header.ApplicationID = helloApplication ∧ m.Header.CommandCode = helloMessage ∧
      m.Header.CommandFlags = RequestFlag := by
  rw [sendHMR_of_metadata w c cfg r peer h]
  exact ⟨rfl, rfl, rfl, rfl, rfl, rfl, ⟨_, _, rfl, rfl, rfl⟩, _, rfl, rfl, rfl, rfl⟩

theorem hello_constants_agree_witness :
    FromContext serverConn.Context = some { OriginHost := "server", OriginRealm := "server_realm" } ∧
    helloApplication = 999 ∧ helloMessage = 111 ∧
    helloDictionary.map (fun a => a.ID) = [helloApplication] ∧
    cli.AcctApplicationID =
      [{ Code := 259, Flags := 0x40, VendorID := 0, Data := Data.Unsigned32 helloApplication }] ∧
    cli.AcctApplicationID.map (fun a => a.Code) = [avp.AcctApplicationID] ∧
    cli.AcctApplicationID.map (fun a => a.Data) = [Data.Unsigned32 999] ∧
    (∃ app k, findApp helloDictionary helloApplication = some app ∧
      app.findCommand helloMessage = some k ∧ k.Code = helloMessage) ∧
    ∃ m, (sendHMR 64 serverConn (cfg 0) 7).2.written = serverConn.written ++ [m] ∧
      m.Header.ApplicationID = helloApplication ∧ m.Header.CommandCode = helloMessage ∧
      m.Header.CommandFlags = RequestFlag :=
  ⟨rfl, hello_constants_agree 64 serverConn (cfg 0) 7
    { OriginHost := "server", OriginRealm := "server_realm" } rfl⟩

/-- C9: the request that `sendHMR` writes satisfies the request rules that
`helloDictionary` declares for command 111 of application 999, for every
configuration, peer metadata and random draw: the required rules are Session-Id,
Origin-Host, Origin-Realm, Destination-Realm and Destination-Host and each of them
occurs in the message, no AVP occurs more often than the maximum of its rule (1),
every AVP of the message is named by a rule, and Session-Id is the first AVP. -/
theorem sendHMR_obeys_request_rules (w : Nat) (c : Conn) (cfg : Settings) (r : Nat)
    (peer : Metadata) (h : FromContext c.Context = some peer) :
    ∃ app k m, findApp helloDictionary 999 = some app ∧ app.findCommand 111 = some k ∧
      (sendHMR w c cfg r).2.written = c.written ++ [m] ∧
      (k.Request.filter (fun rule => rule.Required)).map (fun rule => rule.AVP) =
        ["Session-Id", "Origin-Host", "Origin-Realm", "Destination-Realm", "Destination-Host"] ∧
      (∀ rule ∈ k.Request, rule.Required = true →
        ∃ code, baseAVPCode rule.AVP = some code ∧ 1 ≤ m.countAVP code) ∧
      (∀ rule ∈ k.Request, rule.Max = 1 ∧
        ∀ code, baseAVPCode rule.AVP = some code → m.countAVP code ≤ rule.Max) ∧
      (∀ a ∈ m.AVP, ∃ rule ∈ k.Request, baseAVPCode rule.AVP = some a.Code) ∧
      m.AVP.head?.map (fun a => a.Code) = some avp.SessionID := by
  rw [sendHMR_of_metadata w c cfg r peer h]
  refine ⟨_, _, _, rfl, rfl, rfl, rfl, ?_, ?_, ?_, rfl⟩
  · intro rule hr _
    simp only [List.mem_cons, List.mem_singleton, List.not_mem_nil, or_false] at hr
    rcases hr with rfl | rfl | rfl | rfl | rfl | rfl
    · exact ⟨avp.SessionID, rfl, Nat.le_of_eq rfl⟩
    · exact ⟨avp.OriginHost, rfl, Nat.le_of_eq rfl⟩
    · exact ⟨avp.OriginRealm, rfl, Nat.le_of_eq rfl⟩
    · exact ⟨avp.DestinationRealm, rfl, Nat.le_of_eq rfl⟩
    · exact ⟨avp.DestinationHost, rfl, Nat.le_of_eq rfl⟩
    · exact ⟨avp.UserName, rfl, Nat.le_of_eq rfl⟩
  · intro rule hr
    simp only [List.mem_cons, List.mem_singleton, List.not_mem_nil, or_false] at hr
    rcases hr with rfl | rfl | rfl | rfl | rfl | rfl <;>
      refine ⟨rfl, fun code hc => ?_⟩ <;>
      · cases (Option.some.inj hc)
        exact Nat.le_of_eq rfl
  · intro a ha
    simp only [List.mem_cons, List.mem_singleton, List.not_mem_nil, or_false] at ha
    rcases ha with rfl | rfl | rfl | rfl | rfl | rfl
    · exact ⟨_, List.mem_cons_self _ _, rfl⟩
    · exact ⟨_, List.mem_cons_of_mem _ (List.mem_cons_self _ _), rfl⟩
    · exact ⟨_, List.mem_cons_of_mem _ (List.mem_cons_of_mem _ (List.mem_cons_self _ _)), rfl⟩
    · exact ⟨_, List.mem_cons_of_mem _ (List.mem_cons_of_mem _ (List.mem_cons_of_mem _
        (List.mem_cons_self _ _))), rfl⟩
    · exact ⟨_, List.mem_cons_of_mem _ (List.mem_cons_of_mem _ (List.mem_cons_of_mem _
        (List.mem_cons_of_mem _ (List.mem_cons_self _ _)))), rfl⟩
    · exact ⟨_, List.mem_cons_of_mem _ (List.mem_cons_of_mem _ (List.mem_cons_of_mem _
        (List.mem_cons_of_mem _ (List.mem_cons_of_mem _ (List.mem_cons_self _ _))))), rfl⟩

theorem sendHMR_obeys_request_rules_witness :
    FromContext serverConn.Context = some { OriginHost := "server", OriginRealm := "server_realm" } ∧
    ∃ app k m, findApp helloDictionary 999 = some app ∧ app.findCommand 111 = some k ∧
      (sendHMR 64 serverConn (cfg 0) 7).2.written = serverConn.written ++ [m] ∧
      (k.Request.filter (fun rule => rule.Required)).map (fun rule => rule.AVP) =
        ["Session-Id", "Origin-Host", "Origin-Realm", "Destination-Realm", "Destination-Host"] ∧
      (∀ rule ∈ k.Request, rule.Required = true →
        ∃ code, baseAVPCode rule.AVP = some code ∧ 1 ≤ m.countAVP code) ∧
      (∀ rule ∈ k.Request, rule.Max = 1 ∧
        ∀ code, baseAVPCode rule.AVP = some code → m.countAVP code ≤ rule.Max) ∧
      (∀ a ∈ m.AVP, ∃ rule ∈ k.Request, baseAVPCode rule.AVP = some a.Code) ∧
      m.AVP.head?.map (fun a => a.Code) = some avp.SessionID :=
  ⟨rfl, sendHMR_obeys_request_rules 64 serverConn (cfg 0) 7
    { OriginHost := "server", OriginRealm := "server_realm" } rfl⟩

/-! ## Session identifiers of two requests -/

/-- C3, as stated, fails: two calls of `sendHMR` on the connection `serverConn`, both
successful and neither answered, whose random draws are both 7, write two requests
with the same Session-Id `session;7`. -/
theorem sendHMR_sessionID_collision :
    (sendHMR 64 serverConn (cfg 0) 7).1 = none ∧
    (sendHMR 64 (sendHMR 64 serverConn (cfg 0) 7).2 (cfg 0) 7).1 = none ∧
    ∃ m1 m2, (sendHMR 64 (sendHMR 64 serverConn (cfg 0) 7).2 (cfg 0) 7).2.written = [m1, m2] ∧
      m1.sessionID = some (Data.UTF8String "session;7") ∧
      m2.sessionID = some (Data.UTF8String "session;7") ∧
      ¬ (m1.sessionID ≠ m2.sessionID) := by
  refine ⟨rfl, rfl, _, _, rfl, ?_, ?_, ?_⟩ <;> decide

/-- C3, amended: for every two requests sent by `sendHMR` on the same connection
(with peer metadata; pending or not), with 32-bit random draws `a` and `b`, both
requests carry a Session-Id string, and the two strings are different if and only
if `a ≠ b`: they are the same string whenever the generator returns the same value
twice. -/
theorem sendHMR_sessionID_differ_iff (w : Nat) (hw : w = 32 ∨ w = 64) (c : Conn)
    (cfg : Settings) (a b : Nat) (peer : Metadata) (h : FromContext c.Context = some peer)
    (ha : a < 2 ^ 32) (hb : b < 2 ^ 32) :
    ∃ m1 m2 s1 s2,
      (sendHMR w (sendHMR w c cfg a).2 cfg b).2.written = c.written ++ [m1, m2] ∧
      m1.sessionID = some (Data.UTF8String s1) ∧
      m2.sessionID = some (Data.UTF8String s2) ∧
      (s1 ≠ s2 ↔ a ≠ b) := by
  have h1 := sendHMR_of_metadata w c cfg a peer h
  have h2 := sendHMR_of_metadata w (sendHMR w c cfg a).2 cfg b peer (by rw [h1]; exact h)
  rw [h2, h1]
  refine ⟨_, _, sessionID w a, sessionID w b, List.append_assoc _ _ _, rfl, rfl, ?_⟩
  constructor
  · intro hne hab
    exact hne (by rw [hab])
  · intro hne heq
    exact hne (sessionID_inj w hw a b ha hb heq)

theorem sendHMR_sessionID_differ_iff_witness :
    (32 = 32 ∨ 32 = 64) ∧
    FromContext serverConn.Context = some { OriginHost := "server", OriginRealm := "server_realm" } ∧
    4294967295 < 2 ^ 32 ∧ 8 < 2 ^ 32 ∧
    ∃ m1 m2 s1 s2,
      (sendHMR 32 (sendHMR 32 serverConn (cfg 0) 4294967295).2 (cfg 0) 8).2.written =
        serverConn.written ++ [m1, m2] ∧
      m1.sessionID = some (Data.UTF8String s1) ∧
      m2.sessionID = some (Data.UTF8String s2) ∧
      (s1 ≠ s2 ↔ 4294967295 ≠ 8) :=
  ⟨Or.inl rfl, rfl, by decide, by decide,
    sendHMR_sessionID_differ_iff 32 (Or.inl rfl) serverConn (cfg 0) 4294967295 8
      { OriginHost := "server", OriginRealm := "server_realm" } rfl (by decide) (by decide)⟩

/-- C10: the session identifier that `sendHMR` puts in the Session-Id AVP is
`session;` followed by `strconv.Itoa` of the draw converted to `int`, and it is an
injective function of the 32-bit draw: for draws `a` and `b` the two strings are
equal if and only if `a = b`; over all 32-bit draws there are exactly `2^32`
distinct identifiers. -/
theorem sessionID_eq_iff (w : Nat) (hw : w = 32 ∨ w = 64) (c : Conn) (cfg : Settings)
    (peer : Metadata) (h : FromContext c.Context = some peer) (a b : Nat)
    (ha : a < 2 ^ 32) (hb : b < 2 ^ 32) :
    (∃ m, (sendHMR w c cfg a).2.written = c.written ++ [m] ∧
      m.sessionID = some (Data.UTF8String ("session;" ++ Itoa (toInt w a)))) ∧
    ("session;" ++ Itoa (toInt w a) = "session;" ++ Itoa (toInt w b) ↔ a = b) ∧
    ((Finset.range (2 ^ 32)).image (fun r => "session;" ++ Itoa (toInt w r))).card = 2 ^ 32 := by
  refine ⟨?_, ?_, ?_⟩
  · rw [sendHMR_of_metadata w c cfg a peer h]
    exact ⟨_, rfl, rfl⟩
  · constructor
    · intro heq
      exact sessionID_inj w hw a b ha hb heq
    · intro hab
      rw [hab]
  · rw [Finset.card_image_of_injOn, Finset.card_range]
    intro x hx y hy hxy
    have hx2 : x < 2 ^ 32 := by simpa using hx
    have hy2 : y < 2 ^ 32 := by simpa using hy
    exact sessionID_inj w hw x y hx2 hy2 hxy

theorem sessionID_eq_iff_witness :
    (32 = 32 ∨ 32 = 64) ∧
    FromContext serverConn.Context = some { OriginHost := "server", OriginRealm := "server_realm" } ∧
    4294967295 < 2 ^ 32 ∧ 1 < 2 ^ 32 ∧
    "session;" ++ Itoa (toInt 32 4294967295) = "session;-1" ∧
    (∃ m, (sendHMR 32 serverConn (cfg 0) 4294967295).2.written = serverConn.written ++ [m] ∧
      m.sessionID = some (Data.UTF8String ("session;" ++ Itoa (toInt 32 4294967295)))) ∧
    ("session;" ++ Itoa (toInt 32 4294967295) = "session;" ++ Itoa (toInt 32 1) ↔
      4294967295 = 1) ∧
    ((Finset.range (2 ^ 32)).image (fun r => "session;" ++ Itoa (toInt 32 r))).card = 2 ^ 32 :=
  ⟨Or.inl rfl, rfl, by decide, by decide, by decide,
    sessionID_eq_iff 32 (Or.inl rfl) serverConn (cfg 0)
      { OriginHost := "server", OriginRealm := "server_realm" } rfl 4294967295 1
      (by decide) (by decide)⟩

/-! ## The answer handlers -/

/-- C4, as stated, fails: the request sent has Session-Id `session;7`, the inbound
answer `otherAnswer` has Session-Id `session;8`, and both handlers signal `done`:
after `handleHMA` the channel is closed, after `handleACA` it holds one value, so
the receive of `main` can proceed in either case. -/
theorem handlers_signal_other_session :
    (∃ sent, (sendHMR 64 serverConn (cfg 0) 7).2.written = [sent] ∧
      sent.sessionID = some (Data.UTF8String "session;7") ∧
      otherAnswer.sessionID = some (Data.UTF8String "session;8") ∧
      otherAnswer.sessionID ≠ sent.sessionID) ∧
    (makeChan 1000).recvReady = false ∧
    (∃ d, handleHMA (makeChan 1000) serverConn otherAnswer = Effect.returns d ∧
      d.recvReady = true) ∧
    (∃ d, handleACA (makeChan 1000) serverConn otherAnswer = Effect.returns d ∧
      d.recvReady = true) := by
  refine ⟨⟨_, rfl, ?_, ?_, ?_⟩, ?_, ⟨_, rfl, ?_⟩, ⟨_, rfl, ?_⟩⟩ <;> decide

/-- C5 fails on the code: on the fresh `done` channel of `main`, the first invocation
of the handler of `handleHMA` closes `done`, and a second invocation panics with
`close of closed channel`; on every channel, two invocations in a row end in that
panic. -/
theorem handleHMA_twice_panics (c1 c2 : Conn) (m1 m2 : Message) :
    handleHMA (makeChan 1000) c1 m1 =
      Effect.returns { cap := 1000, len := 0, closed := true, sendq := 0 } ∧
    handleHMA { cap := 1000, len := 0, closed := true, sendq := 0 } c2 m2 =
      Effect.panics "close of closed channel" ∧
    ∀ done : Chan, (handleHMA done c1 m1).andThen (fun d => handleHMA d c2 m2) =
      Effect.panics "close of closed channel" := by
  refine ⟨rfl, rfl, ?_⟩
  intro done
  cases hcl : done.closed <;> simp [handleHMA, Chan.close, Effect.andThen, hcl]

/-! ## The wait of `main` -/

/-- While no inbound answer is dispatched and the deadline has not come, the select
stays blocked on an unsignalled channel. -/
theorem wait_quiet (c : Conn) (inbound : Nat → Option Inbound) (pick : Nat → Bool)
    (d : Chan) (hd : d.recvReady = false) :
    ∀ (k now fuel : Nat), (∀ t, now ≤ t → t < now + k → inbound t = none) →
      now + k ≤ deadline →
      wait c inbound pick (k + fuel) now d false = wait c inbound pick fuel (now + k) d false := by
  intro k
  induction k with
  | zero => intro now fuel _ _; simp
  | succ k ih =>
    intro now fuel hq hle
    have hnow : inbound now = none := hq now (Nat.le_refl _) (by omega)
    have htimer : decide (deadline ≤ now) = false := decide_eq_false (by omega)
    have hstep : wait c inbound pick (k + fuel + 1) now d false =
        wait c inbound pick (k + fuel) (now + 1) d false := by
      simp only [wait, hnow, htimer, selectDone, hd, Bool.false_eq_true, if_false]
    rw [show k + 1 + fuel = k + fuel + 1 by omega, hstep,
      ih (now + 1) fuel (fun t h1 h2 => hq t (by omega) (by omega)) (by omega)]
    congr 1
    omega

theorem makeChan_not_ready : (makeChan 1000).recvReady = false := rfl

/-- With no inbound answer at all, the wait is still blocked at every horizon up to the
deadline and ends in the timeout at the deadline. -/
theorem wait_timeout (c : Conn) (pick : Nat → Bool) (fuel : Nat) :
    wait c (fun _ => none) pick fuel 0 (makeChan 1000) false =
      if fuel ≤ deadline then Run.waiting
      else Run.fatal "timeout: no hello answer received" deadline := by
  split
  · rename_i hle
    have := wait_quiet c (fun _ => none) pick (makeChan 1000) makeChan_not_ready fuel 0 0
      (fun _ _ _ => rfl) (by omega)
    simp only [Nat.add_zero, Nat.zero_add] at this
    rw [this]
    rfl
  · rename_i hgt
    obtain ⟨f, hf⟩ : ∃ f, fuel = deadline + (f + 1) := ⟨fuel - deadline - 1, by omega⟩
    have := wait_quiet c (fun _ => none) pick (makeChan 1000) makeChan_not_ready deadline 0
      (f + 1) (fun _ _ _ => rfl) (by omega)
    rw [Nat.zero_add] at this
    rw [hf, this]
    have htimer : decide (deadline ≤ deadline) = true := decide_eq_true (Nat.le_refl _)
    simp only [wait, htimer, selectDone, makeChan_not_ready, Bool.false_eq_true, if_false]

/-- With a first inbound answer at an instant before the deadline, the wait is blocked
until that instant and ends there with the return of `main`. -/
theorem wait_answered (c : Conn) (inbound : Nat → Option Inbound) (pick : Nat → Bool)
    (s : Nat) (ev : Inbound) (hs : s < deadline) (hbefore : ∀ t, t < s → inbound t = none)
    (hat : inbound s = some ev) (fuel : Nat) :
    wait c inbound pick fuel 0 (makeChan 1000) false =
      if fuel ≤ s then Run.waiting else Run.returned s := by
  split
  · rename_i hle
    have := wait_quiet c inbound pick (makeChan 1000) makeChan_not_ready fuel 0 0
      (fun t _ h2 => hbefore t (by omega)) (by omega)
    simp only [Nat.add_zero, Nat.zero_add] at this
    rw [this]
    rfl
  · rename_i hgt
    obtain ⟨f, hf⟩ : ∃ f, fuel = s + (f + 1) := ⟨fuel - s - 1, by omega⟩
    have := wait_quiet c inbound pick (makeChan 1000) makeChan_not_ready s 0
      (f + 1) (fun t _ h2 => hbefore t (by omega)) (by omega)
    rw [Nat.zero_add] at this
    rw [hf, this]
    have htimer : decide (deadline ≤ s) = false := decide_eq_false (by omega)
    have hat2 : inbound s = some ev := hat
    cases ev with
    | HMA m =>
      simp only [wait, hat2, htimer, dispatch, handleHMA, Chan.close, makeChan,
        selectDone, Chan.recvReady, Bool.false_eq_true, if_false]
      simp
    | ACA m =>
      simp only [wait, hat2, htimer, dispatch, handleACA, Chan.send, makeChan,
        selectDone, Chan.recvReady, Bool.false_eq_true, if_false]
      simp

/-- C4, amended: the handlers returned by `handleHMA` and `handleACA` do not look at
the inbound message.  For every inbound HMA or ACA message `m`, whatever its
Session-Id: on the fresh `done` channel of `main` the handler of `handleHMA` closes
`done` and the handler of `handleACA` buffers one value in it, so a receive from
`done` can proceed; on every channel the effect of a handler is the same for any
two messages; and when `m` is the first inbound answer and is dispatched at an
instant `s` strictly before the deadline, after a successful `sendHMR`, the wait of
`main` ends with `main` returning at `s`. -/
theorem wait_resolved_by_any_answer (w : Nat) (c : Conn) (cfg : Settings) (r : Nat)
    (inbound : Nat → Option Inbound) (pick : Nat → Bool) (s : Nat) (m : Message)
    (ev : Inbound) (fuel : Nat)
    (hsend : (sendHMR w c cfg r).1 = none) (hev : ev = Inbound.HMA m ∨ ev = Inbound.ACA m)
    (hs : s < deadline) (hbefore : ∀ t, t < s → inbound t = none)
    (hat : inbound s = some ev) (hfuel : s < fuel) :
    handleHMA (makeChan 1000) c m =
      Effect.returns { cap := 1000, len := 0, closed := true, sendq := 0 } ∧
    handleACA (makeChan 1000) c m =
      Effect.returns { cap := 1000, len := 1, closed := false, sendq := 0 } ∧
    Chan.recvReady { cap := 1000, len := 0, closed := true, sendq := 0 } = true ∧
    Chan.recvReady { cap := 1000, len := 1, closed := false, sendq := 0 } = true ∧
    (∀ (done : Chan) (c2 : Conn) (m2 : Message),
      handleHMA done c m = handleHMA done c2 m2 ∧ handleACA done c m = handleACA done c2 m2) ∧
    (∃ d, dispatch (makeChan 1000) c ev = Effect.returns d ∧ d.recvReady = true) ∧
    mainFrom w c cfg r inbound pick fuel = Run.returned s := by
  refine ⟨rfl, rfl, by decide, by decide, fun _ _ _ => ⟨rfl, rfl⟩, ?_, ?_⟩
  · rcases hev with rfl | rfl
    · exact ⟨_, rfl, by decide⟩
    · exact ⟨_, rfl, by decide⟩
  · rcases hres : sendHMR w c cfg r with ⟨e, c1⟩
    rw [hres] at hsend
    simp only at hsend
    subst hsend
    simp only [mainFrom, hres]
    rw [wait_answered c1 inbound pick s ev hs hbefore hat fuel, if_neg (by omega)]

theorem wait_resolved_by_any_answer_witness :
    (sendHMR 64 serverConn (cfg 0) 7).1 = none ∧
    (∃ sent, (sendHMR 64 serverConn (cfg 0) 7).2.written = [sent] ∧
      sent.sessionID = some (Data.UTF8String "session;7") ∧
      otherAnswer.sessionID = some (Data.UTF8String "session;8")) ∧
    (Inbound.ACA otherAnswer = Inbound.HMA otherAnswer ∨
      Inbound.ACA otherAnswer = Inbound.ACA otherAnswer) ∧
    9 < deadline ∧ (∀ t, t < 9 → answerAtNine t = none) ∧
    answerAtNine 9 = some (Inbound.ACA otherAnswer) ∧ 9 < 10 ∧
    handleHMA (makeChan 1000) serverConn otherAnswer =
      Effect.returns { cap := 1000, len := 0, closed := true, sendq := 0 } ∧
    handleACA (makeChan 1000) serverConn otherAnswer =
      Effect.returns { cap := 1000, len := 1, closed := false, sendq := 0 } ∧
    Chan.recvReady { cap := 1000, len := 0, closed := true, sendq := 0 } = true ∧
    Chan.recvReady { cap := 1000, len := 1, closed := false, sendq := 0 } = true ∧
    (∀ (done : Chan) (c2 : Conn) (m2 : Message),
      handleHMA done serverConn otherAnswer = handleHMA done c2 m2 ∧
      handleACA done serverConn otherAnswer = handleACA done c2 m2) ∧
    (∃ d, dispatch (makeChan 1000) serverConn (Inbound.ACA otherAnswer) = Effect.returns d ∧
      d.recvReady = true) ∧
    mainFrom 64 serverConn (cfg 0) 7 answerAtNine (fun _ => false) 10 = Run.returned 9 :=
  ⟨rfl, ⟨_, rfl, by decide, by decide⟩, Or.inr rfl, by decide,
    fun t ht => if_neg (Nat.ne_of_lt ht), rfl, by decide,
    wait_resolved_by_any_answer 64 serverConn (cfg 0) 7 answerAtNine (fun _ => false) 9
      otherAnswer (Inbound.ACA otherAnswer) 10 rfl (Or.inr rfl) (by decide)
      (fun t ht => if_neg (Nat.ne_of_lt ht)) rfl (by decide)⟩

/-- C6: after `sendHMR` has returned `nil`, the wait of `main` has one outcome at
every horizon `fuel` (in nanoseconds since the select was entered).  If no inbound
answer is ever dispatched, `main` is still waiting at every horizon up to the
deadline of `5 * time.Second` and ends with the fatal timeout at the deadline.  If
the first inbound answer is dispatched at an instant `s` strictly before the
deadline, `main` is waiting up to `s` and has returned at `s`, also at horizons
past the deadline and whatever the select would pick on a tie: the timeout never
shows. -/
theorem main_wait_outcome (w : Nat) (c : Conn) (cfg : Settings) (r : Nat)
    (inbound : Nat → Option Inbound) (pick : Nat → Bool) (s : Nat) (ev : Inbound) (fuel : Nat)
    (hsend : (sendHMR w c cfg r).1 = none) (hs : s < deadline)
    (hbefore : ∀ t, t < s → inbound t = none) (hat : inbound s = some ev) :
    deadline = 5000000000 ∧
    mainFrom w c cfg r (fun _ => none) pick fuel =
      (if fuel ≤ deadline then Run.waiting
       else Run.fatal "timeout: no hello answer received" deadline) ∧
    mainFrom w c cfg r inbound pick fuel =
      (if fuel ≤ s then Run.waiting else Run.returned s) := by
  rcases hres : sendHMR w c cfg r with ⟨e, c1⟩
  rw [hres] at hsend
  simp only at hsend
  subst hsend
  refine ⟨rfl, ?_, ?_⟩
  · simp only [mainFrom, hres]
    exact wait_timeout c1 pick fuel
  · simp only [mainFrom, hres]
    exact wait_answered c1 inbound pick s ev hs hbefore hat fuel

theorem main_wait_outcome_witness :
    (sendHMR 64 serverConn (cfg 0) 7).1 = none ∧ 3 < deadline ∧
    (∀ t, t < 3 → answerAtThree t = none) ∧
    answerAtThree 3 = some (Inbound.HMA otherAnswer) ∧
    deadline = 5000000000 ∧
    mainFrom 64 serverConn (cfg 0) 7 (fun _ => none) (fun _ => false) 6000000000 =
      (if 6000000000 ≤ deadline then Run.waiting
       else Run.fatal "timeout: no hello answer received" deadline) ∧
    mainFrom 64 serverConn (cfg 0) 7 answerAtThree (fun _ => false) 6000000000 =
      (if 6000000000 ≤ 3 then Run.waiting else Run.returned 3) :=
  ⟨rfl, by decide, fun t ht => if_neg (Nat.ne_of_lt ht), rfl,
    main_wait_outcome 64 serverConn (cfg 0) 7 answerAtThree (fun _ => false) 3
      (Inbound.HMA otherAnswer) 6000000000 rfl (by decide)
      (fun t ht => if_neg (Nat.ne_of_lt ht)) rfl⟩

end HelloClient
